import Mathlib

/-!
# Verification of the telemetry queue processor

Shallow embedding of
`apps/smart_home_microservices/old_system_sensor_service/old_system_sensor_service/telemetry_queue_processor.py`
and the data model of `apps/smart_home_microservices/telemetry_dto/telemetry_dto/__init__.py`.

Conventions of the embedding:
- Python byte strings are `List Nat` (each element a byte value).
- A float payload is represented by its 32-bit IEEE-754 big-endian bit
  pattern (a `Nat`): `struct.pack` of a float writes exactly these four
  bytes, and `struct.unpack` reads them back, so the value field of a
  float sample is modelled by that bit pattern.
- Python exceptions become `Except PyError`.
- `datetime` instants are rationals: seconds since the Unix epoch, UTC.
- The processor imports `TelemetrySampleFormat` from the `telemetry_dto`
  package, whose members are CUSTOM, FLOAT_WITH_TIMESTAMP, FLOAT_BINARY,
  INT, BOOL and TEXT, yet compares the format against
  `TelemetrySampleFormat.FLOAT`: an attribute that does not exist, so in
  both codec functions the comparison raises `AttributeError` before any
  per-format logic runs. The embedding models that attribute access
  explicitly (`TelemetrySampleFormat.getattr`), keeping the per-format
  bodies of the source as the (unreachable) code after it.
-/

namespace TelemetryQueue

/-- Python exception kinds raised by the embedded code paths. -/
inductive PyError where
  /-- `ValueError` (topic already exists, `crash_if_exists==True`). -/
  | valueError
  /-- `NotImplementedError` (formats without a codec). -/
  | notImplementedError
  /-- `struct.error` (buffer of the wrong size handed to `struct.unpack`). -/
  | structError
  /-- `KeyError` (topic missing from `_sample_topic_subscriptions`). -/
  | keyError
  /-- `AttributeError` (access to an enum member that does not exist). -/
  | attributeError
  deriving Repr, DecidableEq

/-- `TelemetrySampleFormat` from the DTO module: CUSTOM, FLOAT_WITH_TIMESTAMP,
FLOAT_BINARY, INT, BOOL, TEXT. -/
inductive TelemetrySampleFormat where
  | CUSTOM
  | FLOAT_WITH_TIMESTAMP
  | FLOAT_BINARY
  | INT
  | BOOL
  | TEXT
  deriving Repr, DecidableEq

/-- The `.value` string of each enum member (the enum is a `str` Enum whose
values equal the member names). -/
def TelemetrySampleFormat.value : TelemetrySampleFormat → String
  | .CUSTOM => "CUSTOM"
  | .FLOAT_WITH_TIMESTAMP => "FLOAT_WITH_TIMESTAMP"
  | .FLOAT_BINARY => "FLOAT_BINARY"
  | .INT => "INT"
  | .BOOL => "BOOL"
  | .TEXT => "TEXT"

/-- Python attribute access `TelemetrySampleFormat.<name>` on the staged
enum: exactly the six staged member names resolve; any other name — in
particular `FLOAT`, the one both codec functions of the processor use —
raises `AttributeError`. -/
def TelemetrySampleFormat.getattr : String → Except PyError TelemetrySampleFormat
  | "CUSTOM" => .ok .CUSTOM
  | "FLOAT_WITH_TIMESTAMP" => .ok .FLOAT_WITH_TIMESTAMP
  | "FLOAT_BINARY" => .ok .FLOAT_BINARY
  | "INT" => .ok .INT
  | "BOOL" => .ok .BOOL
  | "TEXT" => .ok .TEXT
  | _ => .error .attributeError

/-- `FloatTelemetrySample`: a timestamp (seconds since epoch, UTC) and an
optional float value, the value given by its IEEE-754 float32 bit pattern. -/
structure FloatTelemetrySample where
  timestamp : ℚ
  value : Option Nat
  deriving Repr, DecidableEq

/-- `aiokafka.ConsumerRecord` restricted to the fields the processor reads:
topic, broker-assigned timestamp in milliseconds since epoch, and the
(possibly null) payload bytes. -/
structure ConsumerRecord where
  topic : String
  timestamp : Int
  value : Option (List Nat)
  deriving Repr, DecidableEq

/-- `datetime.fromtimestamp(record.timestamp / 1000.0, tz=timezone.utc)`:
milliseconds since epoch to a UTC instant in seconds. -/
def utcInstantFromMillis (ms : Int) : ℚ :=
  (ms : ℚ) / 1000

/-- Big-endian bytes of a 32-bit word, as written by `struct.pack` for a
float32 (4 bytes, most significant first). -/
def packBE4 (bits : Nat) : List Nat :=
  [bits / 2 ^ 24 % 256, bits / 2 ^ 16 % 256, bits / 2 ^ 8 % 256, bits % 256]

/-- Big-endian 32-bit word from 4 bytes, as read by `struct.unpack` of a
float32 buffer. -/
def unpackBE4 (bs : List Nat) : Nat :=
  bs.foldl (fun acc b => acc * 256 + b) 0

/-- `deserialize_sample(record, sample_format)` from
`telemetry_queue_processor.py` lines 34-49.

The source begins with `if sample_format == TelemetrySampleFormat.FLOAT:`.
Evaluating that comparison first accesses `TelemetrySampleFormat.FLOAT`,
a member the imported staged enum does not have, so every call raises
`AttributeError` here. The body after the access mirrors the rest of the
source (now unreachable): the broker timestamp is converted to UTC
seconds; a null payload yields a null-valued sample; otherwise the first
byte is unpacked as a bool `has_val`; the code then tests
`has_val is None` (a test that can never succeed, since `struct.unpack`
of a bool never yields `None`, modelled by the `Option Bool` always being
`some`), and in the else branch unpacks `blob[1:5]` as a 4-byte float,
which raises `struct.error` when fewer than 4 bytes remain. Any other
format would raise `NotImplementedError`. -/
def deserialize_sample (record : ConsumerRecord) (sample_format : TelemetrySampleFormat) :
    Except PyError FloatTelemetrySample := do
  let floatMember ← TelemetrySampleFormat.getattr "FLOAT"
  if sample_format = floatMember then
    let ts_from_record := utcInstantFromMillis record.timestamp
    match record.value with
    | none => .ok ⟨ts_from_record, none⟩
    | some blob =>
      match blob with
      | [] => .error .structError
      | b :: _ =>
        let has_val : Option Bool := some (decide (b ≠ 0))
        match has_val with
        | none => .ok ⟨ts_from_record, none⟩
        | some _ =>
          let slice := (blob.drop 1).take 4
          if slice.length = 4 then
            .ok ⟨ts_from_record, some (unpackBE4 slice)⟩
          else
            .error .structError
  else
    .error .notImplementedError

/-- `serialize_sample(sample, sample_format)` from
`telemetry_queue_processor.py` lines 52-61.

As in `deserialize_sample`, the source first evaluates
`sample_format == TelemetrySampleFormat.FLOAT`, and the access to the
nonexistent member `FLOAT` raises `AttributeError` on every call. The
(unreachable) body after it mirrors the source: a null value packs to the
single byte `\x00` (flag False, no float data); a present value packs to
the flag byte `\x01` followed by the 4 big-endian bytes of the float; any
other format would raise `NotImplementedError`. -/
def serialize_sample (sample : FloatTelemetrySample) (sample_format : TelemetrySampleFormat) :
    Except PyError (List Nat) := do
  let floatMember ← TelemetrySampleFormat.getattr "FLOAT"
  if sample_format = floatMember then
    match sample.value with
    | none => .ok [0]
    | some v => .ok (1 :: packBE4 v)
  else
    .error .notImplementedError

/-- `aiokafka.admin.NewTopic` restricted to the fields `_create_topic`
sets: name, partition count, replication factor, and the two config
entries (retention in milliseconds, written as a decimal string, and the
cleanup policy). -/
structure NewTopic where
  name : String
  num_partitions : Nat
  replication_factor : Nat
  retention_ms : String
  cleanup_policy : String
  deriving Repr, DecidableEq

/-- The broker as the admin client sees it: the list of existing topics.
`list_topics` returns their names; `create_topics` appends. -/
structure BrokerState where
  topics : List NewTopic
  deriving Repr, DecidableEq

/-- `AIOKafkaAdminClient.list_topics()`: the names of the existing topics. -/
def BrokerState.list_topics (st : BrokerState) : List String :=
  st.topics.map NewTopic.name

/-- `str(int(timedelta(days=retention_days).total_seconds() * 1000))`:
days to milliseconds, rendered as a decimal string. -/
def retentionMsString (retention_days : Nat) : String :=
  toString (retention_days * 86400000)

/-- `TelemetryQueueProcessor._create_topic(topic_name, retention_days,
crash_if_exists)` from `telemetry_queue_processor.py` lines 88-104: list the
topics; if the name is present, raise `ValueError` when `crash_if_exists`
else do nothing; if absent, create the topic with one partition, replication
factor 1, `retention.ms` derived from `retention_days`, and
`cleanup.policy = delete`. Returns the broker state after the call. -/
def create_topic (st : BrokerState) (topic_name : String) (retention_days : Nat)
    (crash_if_exists : Bool) : Except PyError BrokerState :=
  if topic_name ∈ st.list_topics then
    if crash_if_exists then
      .error .valueError
    else
      .ok st
  else
    let topic : NewTopic :=
      { name := topic_name
        num_partitions := 1
        replication_factor := 1
        retention_ms := retentionMsString retention_days
        cleanup_policy := "delete" }
    .ok { st with topics := st.topics ++ [topic] }

/-- `TelemetryPublisher.__init__` topic-name derivation from
`telemetry_queue_processor.py` line 223:
`f"telemetry_samples__{sensor_name}__{sample_format.value}__{topic_uuid_str}"`. -/
def publisherTopicName (sensor_name : String) (topic_uuid_str : String)
    (sample_format : TelemetrySampleFormat) : String :=
  "telemetry_samples__" ++ sensor_name ++ "__" ++ sample_format.value ++ "__" ++ topic_uuid_str

/-- A sample-consumption asyncio task as the event loop sees it.
`Task.cancel()` only requests cancellation; the task stays alive (not
finished) until it observes `CancelledError` at its next suspension point. -/
structure TaskState where
  cancel_requested : Bool
  finished : Bool
  deriving Repr, DecidableEq

/-- One message of the control topic as `listen_status_events` classifies
it: a parsed `MeasurementStartedStatusEvent`, a parsed
`MeasurementStoppedStatusEvent`, any other parsed status event, or a
payload on which `StatusEventTypeAdapter.validate_json` raises (the
exception is caught and logged). -/
inductive ControlMessage where
  | measurementStarted (kafka_topic_name : String) (sampling_format : TelemetrySampleFormat)
  | measurementStopped (kafka_topic_name : String)
  | otherEvent
  | malformed
  deriving Repr, DecidableEq

/-- Python dict assignment `d[k] = v` on an insertion-ordered association
list: update in place when the key is present, append otherwise. -/
def dictInsert : List (String × TelemetrySampleFormat) → String → TelemetrySampleFormat →
    List (String × TelemetrySampleFormat)
  | [], k, v => [(k, v)]
  | (k0, v0) :: rest, k, v =>
    if k0 = k then (k, v) :: rest else (k0, v0) :: dictInsert rest k v

/-- Python `list(d.keys())` in insertion order. -/
def dictKeys (d : List (String × TelemetrySampleFormat)) : List String :=
  d.map Prod.fst

/-- Python `d[k]` lookup, `None` standing for the `KeyError` case. -/
def dictLookup : List (String × TelemetrySampleFormat) → String → Option TelemetrySampleFormat
  | [], _ => none
  | (k0, v0) :: rest, k => if k0 = k then some v0 else dictLookup rest k

/-- The `TelemetrySubscriber` state touched by `listen_status_events`:
the topic-to-format registry `_sample_topic_subscriptions`, the data
consumer subscription set, the tasks the event loop still holds after the
subscriber dropped its reference to them, and `_listen_samples_task`. -/
structure SubscriberState where
  sample_topic_subscriptions : List (String × TelemetrySampleFormat)
  consumer_subscription : List String
  retired_tasks : List TaskState
  listen_samples_task : Option TaskState
  deriving Repr, DecidableEq

/-- State right after `TelemetrySubscriber.__init__` and `initialize`:
empty registry, no data-topic subscription, no consumption task. -/
def initialSubscriberState : SubscriberState :=
  { sample_topic_subscriptions := []
    consumer_subscription := []
    retired_tasks := []
    listen_samples_task := none }

/-- The body of the `async for` loop of
`TelemetrySubscriber.listen_status_events` (lines 194-208) for one control
message. Only `MeasurementStartedStatusEvent` has a branch: the topic is
written into the registry, the data consumer is unsubscribed and then
subscribed to the registry key list, the running consumption task (if any)
has its cancellation requested — without being awaited — and a fresh task
is created. Every other message, `MeasurementStoppedStatusEvent` included,
falls through the `isinstance` test (or is a caught exception) and leaves
the state unchanged. -/
def handle_status_event (st : SubscriberState) (msg : ControlMessage) : SubscriberState :=
  match msg with
  | .measurementStarted kafka_topic_name sampling_format =>
    let subs := dictInsert st.sample_topic_subscriptions kafka_topic_name sampling_format
    let retired :=
      match st.listen_samples_task with
      | some t => st.retired_tasks ++ [{ t with cancel_requested := true }]
      | none => st.retired_tasks
    { sample_topic_subscriptions := subs
      consumer_subscription := dictKeys subs
      retired_tasks := retired
      listen_samples_task := some { cancel_requested := false, finished := false } }
  | _ => st

/-- `listen_status_events` over a finite stream of control messages. -/
def listen_status_events (st : SubscriberState) (msgs : List ControlMessage) : SubscriberState :=
  msgs.foldl handle_status_event st

/-- One cycle of the event loop: every task whose cancellation has been
requested observes `CancelledError` at its suspension point and exits. -/
def schedulerStep (st : SubscriberState) : SubscriberState :=
  { st with
    retired_tasks := st.retired_tasks.map
      (fun t => if t.cancel_requested then { t with finished := true } else t)
    listen_samples_task := st.listen_samples_task.map
      (fun t => if t.cancel_requested then { t with finished := true } else t) }

/-- A task is alive while it has not finished. -/
def TaskState.alive (t : TaskState) : Bool :=
  !t.finished

/-- Number of consumption tasks alive (created and not yet finished). -/
def aliveTaskCount (st : SubscriberState) : Nat :=
  (st.retired_tasks.filter TaskState.alive).length +
    (match st.listen_samples_task with
     | some t => if t.alive then 1 else 0
     | none => 0)

/-- Number of alive consumption tasks whose cancellation has not been
requested. -/
def freshAliveTaskCount (st : SubscriberState) : Nat :=
  (st.retired_tasks.filter (fun t => t.alive && !t.cancel_requested)).length +
    (match st.listen_samples_task with
     | some t => if t.alive && !t.cancel_requested then 1 else 0
     | none => 0)

/-- The body of the `async for` loop of `TelemetrySubscriber.listen_samples`
(lines 166-179) for one record: look the topic up in the registry
(`KeyError` when absent), deserialize the sample, hand it to
`process_sample` (which may itself raise). -/
def process_record (subs : List (String × TelemetrySampleFormat))
    (process_sample : String → FloatTelemetrySample → Except PyError Unit)
    (message : ConsumerRecord) : Except PyError FloatTelemetrySample :=
  match dictLookup subs message.topic with
  | none => .error .keyError
  | some sample_format =>
    match deserialize_sample message sample_format with
    | .error e => .error e
    | .ok sample =>
      match process_sample message.topic sample with
      | .error e => .error e
      | .ok _ => .ok sample

/-- `TelemetrySubscriber.listen_samples` over a finite stream of records:
each record is processed inside a `try`/`except` that catches, logs and
skips any per-record exception, so the loop advances to the next record.
Returns the (topic, sample) pairs successfully handled, in order. -/
def listen_samples (subs : List (String × TelemetrySampleFormat))
    (process_sample : String → FloatTelemetrySample → Except PyError Unit) :
    List ConsumerRecord → List (String × FloatTelemetrySample)
  | [] => []
  | message :: rest =>
    match process_record subs process_sample message with
    | .ok sample => (message.topic, sample) :: listen_samples subs process_sample rest
    | .error _ => listen_samples subs process_sample rest

end TelemetryQueue

namespace TelemetryQueue

/-- Claim C1: the claimed round trip fails before it can start. Both codec
functions evaluate `sample_format == TelemetrySampleFormat.FLOAT`, and the
access to the member `FLOAT` — absent from the imported staged enum —
raises `AttributeError`: serializing a null-valued float sample under the
binary float format does not produce a payload at all, and deserializing
any record fails the same way, so the value field is never round-tripped. -/
theorem c1_none_roundtrip_crashes :
    serialize_sample ⟨0, none⟩ TelemetrySampleFormat.FLOAT_BINARY =
      .error PyError.attributeError ∧
    deserialize_sample ⟨"t", 0, some [0]⟩ TelemetrySampleFormat.FLOAT_BINARY =
      .error PyError.attributeError := by
  constructor <;> rfl

/-- Claim C4: for every sample format — the non-binary-float ones of the
claim included — both `serialize_sample` and `deserialize_sample` fail with
`AttributeError` raised by the access to the nonexistent enum member
`TelemetrySampleFormat.FLOAT`, before the `raise NotImplementedError`
placeholder can be reached. -/
theorem c4_other_formats_attribute_error
    (f : TelemetrySampleFormat) (sample : FloatTelemetrySample) (record : ConsumerRecord) :
    serialize_sample sample f = .error PyError.attributeError ∧
    deserialize_sample record f = .error PyError.attributeError := by
  constructor <;> rfl

/-- Claim C5: under the binary float format, serialization never returns a
payload of any length: for both a null and a present value the call fails
with `AttributeError` at the access to the nonexistent enum member
`TelemetrySampleFormat.FLOAT`, before any byte is packed. -/
theorem c5_serialize_attribute_error (ts : ℚ) (v : Nat) :
    serialize_sample ⟨ts, none⟩ TelemetrySampleFormat.FLOAT_BINARY =
      .error PyError.attributeError ∧
    serialize_sample ⟨ts, some v⟩ TelemetrySampleFormat.FLOAT_BINARY =
      .error PyError.attributeError := by
  constructor <;> rfl

/-- Claim C6: `_create_topic` fails with the configuration error
(`ValueError`) exactly when the topic already exists and the
fail-if-exists flag is set; when the topic exists and the flag is clear it
is a no-op on the broker state; when the topic is absent it creates it
with a single partition, a delete cleanup policy, and a retention in
milliseconds derived from `retention_days`. -/
theorem c6_create_topic_spec (st : BrokerState) (topic_name : String)
    (retention_days : Nat) (crash_if_exists : Bool) :
    (create_topic st topic_name retention_days crash_if_exists = .error PyError.valueError ↔
      topic_name ∈ st.list_topics ∧ crash_if_exists = true) ∧
    (topic_name ∈ st.list_topics → crash_if_exists = false →
      create_topic st topic_name retention_days crash_if_exists = .ok st) ∧
    (topic_name ∉ st.list_topics →
      ∃ t : NewTopic,
        create_topic st topic_name retention_days crash_if_exists = .ok ⟨st.topics ++ [t]⟩ ∧
        t.name = topic_name ∧ t.num_partitions = 1 ∧ t.cleanup_policy = "delete" ∧
        t.retention_ms = toString (retention_days * 86400000)) := by
  refine ⟨?_, ?_, ?_⟩
  · constructor
    · intro h
      by_cases hmem : topic_name ∈ st.list_topics
      · by_cases hc : crash_if_exists <;> simp_all [create_topic]
      · simp [create_topic, hmem] at h
    · rintro ⟨hmem, hc⟩
      simp [create_topic, hmem, hc]
  · intro hmem hc
    simp [create_topic, hmem, hc]
  · intro hmem
    refine ⟨⟨topic_name, 1, 1, retentionMsString retention_days, "delete"⟩, ?_, rfl, rfl, rfl, rfl⟩
    simp [create_topic, hmem]

/-- Witness for C6: on a broker holding only topic `t`, a non-crashing call
for `t` is a no-op, and a call for the absent topic `u` creates it with one
partition, delete cleanup policy and the derived retention. -/
theorem c6_create_topic_spec_witness :
    (create_topic ⟨[⟨"t", 1, 1, "86400000", "delete"⟩]⟩ "t" 1 false =
      .ok ⟨[⟨"t", 1, 1, "86400000", "delete"⟩]⟩) ∧
    (∃ t : NewTopic,
      create_topic ⟨[⟨"t", 1, 1, "86400000", "delete"⟩]⟩ "u" 2 true =
        .ok ⟨[⟨"t", 1, 1, "86400000", "delete"⟩] ++ [t]⟩ ∧
      t.name = "u" ∧ t.num_partitions = 1 ∧ t.cleanup_policy = "delete" ∧
      t.retention_ms = toString (2 * 86400000)) :=
  ⟨(c6_create_topic_spec ⟨[⟨"t", 1, 1, "86400000", "delete"⟩]⟩ "t" 1 false).2.1
      (by simp [BrokerState.list_topics]) rfl,
    (c6_create_topic_spec ⟨[⟨"t", 1, 1, "86400000", "delete"⟩]⟩ "u" 2 true).2.2
      (by simp [BrokerState.list_topics])⟩

/-- Claim C9: the publisher topic name is a deterministic function of
sensor name, process token and sample format, and is injective in the
process token: identical triples give identical names, and triples equal
except for the token give different names. -/
theorem c9_topic_name_determinism (sensor_name : String)
    (sample_format : TelemetrySampleFormat) (tok1 tok2 : String) :
    (tok1 = tok2 →
      publisherTopicName sensor_name tok1 sample_format =
        publisherTopicName sensor_name tok2 sample_format) ∧
    (tok1 ≠ tok2 →
      publisherTopicName sensor_name tok1 sample_format ≠
        publisherTopicName sensor_name tok2 sample_format) := by
  constructor
  · intro h
    rw [h]
  · intro hne heq
    apply hne
    have hdata := congrArg String.data heq
    simp only [publisherTopicName, String.data_append] at hdata
    exact String.ext (List.append_cancel_left hdata)

/-- Witness for C9 at concrete sensor name, format and distinct tokens. -/
theorem c9_topic_name_determinism_witness :
    publisherTopicName "s1" "tokA" TelemetrySampleFormat.FLOAT_BINARY ≠
      publisherTopicName "s1" "tokB" TelemetrySampleFormat.FLOAT_BINARY :=
  (c9_topic_name_determinism "s1" TelemetrySampleFormat.FLOAT_BINARY "tokA" "tokB").2
    (by decide)

/-- Claim C2: evaluation of the control-event loop on the sequence
started(a), started(b), stopped(a). The `MeasurementStopped` event has no
branch in `listen_status_events`, so the registry keys and the consumer
subscription both remain `["a", "b"]`, not `["b"]` as the spec requires. -/
theorem c2_stopped_event_ignored :
    dictKeys (listen_status_events initialSubscriberState
        [ControlMessage.measurementStarted "a" TelemetrySampleFormat.FLOAT_BINARY,
         ControlMessage.measurementStarted "b" TelemetrySampleFormat.FLOAT_BINARY,
         ControlMessage.measurementStopped "a"]).sample_topic_subscriptions = ["a", "b"] ∧
    (listen_status_events initialSubscriberState
        [ControlMessage.measurementStarted "a" TelemetrySampleFormat.FLOAT_BINARY,
         ControlMessage.measurementStarted "b" TelemetrySampleFormat.FLOAT_BINARY,
         ControlMessage.measurementStopped "a"]).consumer_subscription = ["a", "b"] ∧
    (["a", "b"] : List String) ≠ ["b"] := by
  refine ⟨rfl, rfl, by decide⟩

/-- The claimed single-alive-task property is false: right after the second
consecutive `MeasurementStarted` event (even allowing the event loop a full
cycle between the two events), two consumption tasks are alive, because the
handler requests cancellation of the old task but starts the new one
without awaiting the old task's termination. -/
theorem c3_two_tasks_alive_after_two_starts :
    aliveTaskCount
        (handle_status_event
          (schedulerStep
            (handle_status_event initialSubscriberState
              (ControlMessage.measurementStarted "a" TelemetrySampleFormat.FLOAT_BINARY)))
          (ControlMessage.measurementStarted "b" TelemetrySampleFormat.FLOAT_BINARY)) = 2 ∧
    (2 : Nat) ≠ 1 := by
  refine ⟨rfl, by decide⟩

/-- Task-shape invariant maintained by consecutive started events: every
task the subscriber no longer references has had its cancellation
requested and has not yet finished, and the referenced task is fresh. -/
def taskInvariant (st : SubscriberState) : Prop :=
  (∀ t ∈ st.retired_tasks, t = TaskState.mk true false) ∧
  st.listen_samples_task = some (TaskState.mk false false)

lemma handle_started_taskInvariant (st : SubscriberState)
    (h : taskInvariant st) (topic : String) (fmt : TelemetrySampleFormat) :
    taskInvariant (handle_status_event st (ControlMessage.measurementStarted topic fmt)) := by
  obtain ⟨hret, htask⟩ := h
  refine ⟨?_, rfl⟩
  intro t ht
  simp only [handle_status_event, htask, List.mem_append, List.mem_singleton] at ht
  rcases ht with ht | ht
  · exact hret t ht
  · simp [ht]

lemma foldl_started_taskInvariant (msgs : List ControlMessage) :
    ∀ st : SubscriberState, taskInvariant st →
      (∀ m ∈ msgs, ∃ topic fmt, m = ControlMessage.measurementStarted topic fmt) →
      taskInvariant (msgs.foldl handle_status_event st) := by
  induction msgs with
  | nil => exact fun st h _ => h
  | cons m rest ih =>
    intro st h hall
    obtain ⟨topic, fmt, rfl⟩ := hall m (List.mem_cons_self m rest)
    exact ih _ (handle_started_taskInvariant st h topic fmt)
      (fun x hx => hall x (List.mem_cons_of_mem _ hx))

lemma taskInvariant_freshAliveTaskCount (st : SubscriberState) (h : taskInvariant st) :
    freshAliveTaskCount st = 1 := by
  obtain ⟨hret, htask⟩ := h
  have hnil : st.retired_tasks.filter (fun t => t.alive && !t.cancel_requested) = [] := by
    refine List.filter_eq_nil_iff.mpr fun t ht => ?_
    rw [hret t ht]
    decide
  unfold freshAliveTaskCount
  rw [hnil, htask]
  decide

lemma taskInvariant_schedulerStep_alive (st : SubscriberState) (h : taskInvariant st) :
    aliveTaskCount (schedulerStep st) = 1 := by
  obtain ⟨hret, htask⟩ := h
  have hnil : (st.retired_tasks.map
      (fun t => if t.cancel_requested then { t with finished := true } else t)).filter
        TaskState.alive = [] := by
    refine List.filter_eq_nil_iff.mpr fun t ht => ?_
    simp only [List.mem_map] at ht
    obtain ⟨u, hu, rfl⟩ := ht
    have := hret u hu
    subst this
    decide
  unfold aliveTaskCount schedulerStep
  dsimp only
  rw [htask, hnil]
  decide

/-- Claim C3 amended: on each `MeasurementStarted` the handler requests
cancellation of the running consumption task but does not await its
termination before starting the new task; consequently, after any
nonempty run of consecutive `MeasurementStarted` events exactly one alive
consumption task is not cancel-requested (the newest), and once the event
loop lets every cancel-requested task observe its cancellation, exactly
one consumption task is alive. -/
theorem c3_amended_single_active_task (msgs : List ControlMessage)
    (hstarted : ∀ m ∈ msgs, ∃ topic fmt, m = ControlMessage.measurementStarted topic fmt)
    (hne : msgs ≠ []) :
    freshAliveTaskCount (listen_status_events initialSubscriberState msgs) = 1 ∧
    aliveTaskCount (schedulerStep (listen_status_events initialSubscriberState msgs)) = 1 := by
  obtain ⟨m, rest, rfl⟩ := List.exists_cons_of_ne_nil hne
  obtain ⟨topic, fmt, rfl⟩ := hstarted _ (List.mem_cons_self _ _)
  have h1 : taskInvariant (handle_status_event initialSubscriberState
      (ControlMessage.measurementStarted topic fmt)) := by
    constructor
    · intro t ht
      simp [handle_status_event, initialSubscriberState] at ht
    · rfl
  have h2 := foldl_started_taskInvariant rest _ h1
    (fun x hx => hstarted x (List.mem_cons_of_mem _ hx))
  simp only [listen_status_events, List.foldl_cons]
  exact ⟨taskInvariant_freshAliveTaskCount _ h2, taskInvariant_schedulerStep_alive _ h2⟩

/-- Witness for the amended C3 at two consecutive started events. -/
theorem c3_amended_single_active_task_witness :
    freshAliveTaskCount (listen_status_events initialSubscriberState
        [ControlMessage.measurementStarted "a" TelemetrySampleFormat.FLOAT_BINARY,
         ControlMessage.measurementStarted "b" TelemetrySampleFormat.FLOAT_BINARY]) = 1 ∧
    aliveTaskCount (schedulerStep (listen_status_events initialSubscriberState
        [ControlMessage.measurementStarted "a" TelemetrySampleFormat.FLOAT_BINARY,
         ControlMessage.measurementStarted "b" TelemetrySampleFormat.FLOAT_BINARY])) = 1 :=
  c3_amended_single_active_task _
    (by
      intro m hm
      simp only [List.mem_cons, List.not_mem_nil, or_false] at hm
      rcases hm with rfl | rfl
      · exact ⟨"a", TelemetrySampleFormat.FLOAT_BINARY, rfl⟩
      · exact ⟨"b", TelemetrySampleFormat.FLOAT_BINARY, rfl⟩)
    (by simp)

lemma handle_preserves_subscription_eq (st : SubscriberState) (msg : ControlMessage)
    (h : st.consumer_subscription = dictKeys st.sample_topic_subscriptions) :
    (handle_status_event st msg).consumer_subscription =
      dictKeys (handle_status_event st msg).sample_topic_subscriptions := by
  cases msg with
  | measurementStarted topic fmt => rfl
  | measurementStopped topic => exact h
  | otherEvent => exact h
  | malformed => exact h

lemma foldl_preserves_subscription_eq (msgs : List ControlMessage) :
    ∀ st : SubscriberState,
      st.consumer_subscription = dictKeys st.sample_topic_subscriptions →
      (msgs.foldl handle_status_event st).consumer_subscription =
        dictKeys (msgs.foldl handle_status_event st).sample_topic_subscriptions := by
  induction msgs with
  | nil => exact fun st h => h
  | cons m rest ih =>
    exact fun st h => ih _ (handle_preserves_subscription_eq st m h)

/-- Claim C7: after the control-event loop processes any finite sequence of
control messages from the initial state, the data consumer subscription set
equals the registry key set. -/
theorem c7_subscription_matches_registry (msgs : List ControlMessage) :
    (listen_status_events initialSubscriberState msgs).consumer_subscription =
      dictKeys (listen_status_events initialSubscriberState msgs).sample_topic_subscriptions :=
  foldl_preserves_subscription_eq msgs initialSubscriberState rfl

/-- Claim C8: the per-record `try`/`except` does keep the consumption loop
alive, but the "valid records are still decoded and handled" half of the
claim fails: on a stream of a well-formed null-payload record, a malformed
empty-payload record and a well-formed five-byte record — the topic being
registered with the binary float format — every record, valid ones
included, raises `AttributeError` inside `deserialize_sample` (at the
nonexistent enum member `TelemetrySampleFormat.FLOAT`), is caught and is
skipped, so the loop runs to the end of the stream with an empty handled
output. -/
theorem c8_valid_records_never_handled :
    listen_samples [("t", TelemetrySampleFormat.FLOAT_BINARY)] (fun _ _ => .ok ())
        [⟨"t", 5000, none⟩, ⟨"t", 0, some []⟩, ⟨"t", 7000, some [1, 0, 0, 0, 0]⟩] = [] := by
  rfl

/-- Claim C10: a broker record whose payload is entirely null does not
decode to a null-valued sample: `deserialize_sample` fails with
`AttributeError` at the access to the nonexistent enum member
`TelemetrySampleFormat.FLOAT`, before `record.value` is even inspected,
for every broker timestamp and topic. -/
theorem c10_null_payload_attribute_error (topic : String) (ms : Int) :
    deserialize_sample ⟨topic, ms, none⟩ TelemetrySampleFormat.FLOAT_BINARY =
      .error PyError.attributeError := by
  rfl

end TelemetryQueue
